import Mathlib

/-!
Verification of the runout-evaluation engine of `alphas.py`.

The script loads a terrain DEM raster, a list of trigger points, and a runout
angle `alpha` (degrees).  For every trigger it computes, over the whole grid,
`dz = trigger_elevation - dem_values`, clips negative values to zero, squares,
and accumulates `runout_terrain |= (dz / dists > runout_thresh)` where
`dists` is the squared planar distance between each cell center and the
trigger's projected coordinate and `runout_thresh = tan(alpha/180*pi)^2`.

The shallow embedding below models:
  * the raster grid with a north-up affine geotransform (the standard GeoTIFF
    layout: pixel columns advance the easting by `px`, rows the northing by
    `py`, with no rotation terms), cell centers at half-pixel offsets as
    produced by `rasterio.transform.xy(..., offset="center")`;
  * `dem.sample`, which floors the inverse transform to the containing cell
    (`dataset.index` with `op=math.floor`) and yields the no-data sentinel
    for coordinates outside the raster extent;
  * the per-cell comparison with the float semantics the numpy expressions
    have at a zero denominator: `0.0/0.0` is NaN and any comparison with NaN
    is false, `positive/0.0` is `+inf` which exceeds every finite threshold;
    away from a zero denominator real arithmetic is used;
  * the command-line extraction `runout_angle = int(args.alpha)` (Python's
    `int` on a decimal string: optional surrounding whitespace, optional
    sign, then a nonempty digit run; digit-grouping underscores are not
    modelled), which in the script runs before any terrain data is loaded.

Definitions are polymorphic over a linear ordered field so that theorems can
be stated at `ℝ` (where the program's `tan²` threshold lives) while witnesses
evaluate at `ℚ`.
-/

namespace Alphas

/-- A terrain DEM raster: dimensions, a north-up affine geotransform
(`x0`, `y0` the corner of pixel (0,0); `px`, `py` the pixel sizes, `py`
typically negative), per-cell elevation values (which may hold the no-data
sentinel), and the no-data sentinel itself. -/
structure Grid (α : Type) where
  height : ℕ
  width : ℕ
  x0 : α
  y0 : α
  px : α
  py : α
  elevation : ℕ → ℕ → α
  nodata : α

variable {α : Type} [LinearOrderedField α] [FloorRing α]

/-- Planar easting of the center of column `c`, as in
`rasterio.transform.xy(dem.transform, rows, cols)` (center offset 0.5). -/
def eastingAt (g : Grid α) (c : ℕ) : α := g.x0 + ((c : α) + 1 / 2) * g.px

/-- Planar northing of the center of row `r`. -/
def northingAt (g : Grid α) (r : ℕ) : α := g.y0 + ((r : α) + 1 / 2) * g.py

/-- Row of the cell containing northing `y`: `dataset.index` floors the
inverse transform. -/
def rowIdx (g : Grid α) (y : α) : ℤ := ⌊(y - g.y0) / g.py⌋

/-- Column of the cell containing easting `x`. -/
def colIdx (g : Grid α) (x : α) : ℤ := ⌊(x - g.x0) / g.px⌋

/-- The point `(x, y)` indexes into the raster extent (the bounds check of
`rasterio.sample.sample_gen`). -/
def inExtent (g : Grid α) (x y : α) : Prop :=
  0 ≤ rowIdx g y ∧ rowIdx g y < (g.height : ℤ) ∧
    0 ≤ colIdx g x ∧ colIdx g x < (g.width : ℤ)

instance (g : Grid α) (x y : α) : Decidable (inExtent g x y) :=
  inferInstanceAs (Decidable (0 ≤ rowIdx g y ∧ rowIdx g y < (g.height : ℤ) ∧
    0 ≤ colIdx g x ∧ colIdx g x < (g.width : ℤ)))

/-- `dem.sample([(x, y)])`: nearest-cell (containing-cell) value, or the
no-data sentinel for a point outside the raster extent. -/
def sample (g : Grid α) (x y : α) : α :=
  if inExtent g x y then g.elevation (rowIdx g y).toNat (colIdx g x).toNat
  else g.nodata

/-- One cell of the trigger-loop body (lines `dx = ...` through
`dz / dists > runout_thresh`): squared distance `dists`, elevation drop
clipped at zero (`dz[dz<0] = 0`), squared, divided, compared.  The two
zero-denominator branches mirror the numpy float results: `0.0/0.0` is NaN
and `NaN > thresh` is false; `positive/0.0` is `+inf` and `inf > thresh` is
true. -/
def cellReach (thresh te tx ty ex ey ze : α) : Bool :=
  let dx := ex - tx
  let dy := ey - ty
  let dists := dx * dx + dy * dy
  let dz0 := te - ze
  let dz1 := if dz0 < 0 then 0 else dz0
  let dz2 := dz1 * dz1
  if dists = 0 then (if dz2 = 0 then false else true)
  else decide (dz2 / dists > thresh)

/-- Whether trigger `t` (projected coordinate) marks cell `(r, c)`: its
elevation is sampled from the grid at its own location, then the per-cell
comparison is evaluated at the cell's center coordinates and elevation. -/
def marks (g : Grid α) (thresh : α) (t : α × α) (r c : ℕ) : Bool :=
  cellReach thresh (sample g t.1 t.2) t.1 t.2 (eastingAt g c) (northingAt g r)
    (g.elevation r c)

/-- `runout_terrain = np.full(dem.shape, False, dtype=bool)`. -/
def initialMask : ℕ → ℕ → Bool := fun _ _ => false

/-- `runout_terrain = runout_terrain | (dz / dists > runout_thresh)`. -/
def maskStep (g : Grid α) (thresh : α) (m : ℕ → ℕ → Bool) (t : α × α) :
    ℕ → ℕ → Bool :=
  fun r c => m r c || marks g thresh t r c

/-- The trigger loop: fold the per-trigger update over the list of triggers,
starting from the all-false mask. -/
def runoutTerrain (g : Grid α) (thresh : α) (ts : List (α × α)) :
    ℕ → ℕ → Bool :=
  ts.foldl (maskStep g thresh) initialMask

/-- `runout_thresh = np.power(np.tan(runout_angle / 180 * np.pi), 2)`. -/
noncomputable def runoutThresh (angle : ℝ) : ℝ :=
  Real.tan (angle / 180 * Real.pi) ^ 2

/-- The reachability formula exactly as the spec states it
(`reachable = (elevationDrop^2 / squaredDistance) > tan(alpha)^2`, with
`elevationDrop = max(te - ze, 0)`), read with Lean's total division. -/
def specReachable (thresh te tx ty ex ey ze : α) : Prop :=
  (max (te - ze) 0) ^ 2 / ((ex - tx) ^ 2 + (ey - ty) ^ 2) > thresh

/-- Value of a decimal digit character. -/
def digitVal (ch : Char) : Option ℕ :=
  if ch.isDigit then some (ch.toNat - 48) else none

/-- Accumulate a digit run; fails on the first non-digit. -/
def digitsValAux : ℕ → List Char → Option ℕ
  | n, [] => some n
  | n, ch :: rest =>
    match digitVal ch with
    | some d => digitsValAux (10 * n + d) rest
    | none => none

/-- A nonempty all-digit run, as a number. -/
def digitsVal : List Char → Option ℕ
  | [] => none
  | cs => digitsValAux 0 cs

/-- Strip leading and trailing whitespace from a character list. -/
def trimWs (cs : List Char) : List Char :=
  ((cs.dropWhile Char.isWhitespace).reverse.dropWhile Char.isWhitespace).reverse

/-- Python's `int()` applied to a string: optional surrounding whitespace,
optional sign, nonempty digit run; anything else (such as `"19.5"`) raises
`ValueError`, modelled as `none`. -/
def pyInt (s : String) : Option ℤ :=
  match trimWs s.toList with
  | '-' :: rest => (digitsVal rest).map (fun n => -(n : ℤ))
  | '+' :: rest => (digitsVal rest).map (fun n => (n : ℤ))
  | cs => (digitsVal cs).map (fun n => (n : ℤ))

/-- `argParser.add_argument("-a", "--alpha", ..., default=19)`: the default
is the integer 19, passed unchanged through `int()`. -/
def defaultAlpha : ℤ := 19

/-- `runout_angle = int(args.alpha)`: the default when `-a` is absent,
otherwise `int()` of the supplied string.  No range check is performed. -/
def runoutAngleOf : Option String → Option ℤ
  | none => some defaultAlpha
  | some s => pyInt s

/-- The program pipeline relevant to the angle argument: extract the angle
(line 55 of the script, which precedes the imports and the DEM loading),
then evaluate the mask with the threshold derived from it.  `toThresh`
abstracts the `tan²` conversion so the pipeline stays polymorphic; theorems
instantiate it with `runoutThresh`. -/
def runProgram (toThresh : ℤ → α) (alphaArg : Option String) (g : Grid α)
    (ts : List (α × α)) : Option (ℕ → ℕ → Bool) :=
  (runoutAngleOf alphaArg).map (fun a => runoutTerrain g (toThresh a) ts)

/-! ### Basic lemmas about the mask fold -/

lemma foldl_maskStep (g : Grid α) (th : α) (ts : List (α × α))
    (m : ℕ → ℕ → Bool) (r c : ℕ) :
    ts.foldl (maskStep g th) m r c = (m r c || ts.any fun t => marks g th t r c) := by
  induction ts generalizing m with
  | nil => simp
  | cons t ts ih => simp [List.foldl_cons, ih, maskStep, Bool.or_assoc]

lemma runoutTerrain_eq_any (g : Grid α) (th : α) (ts : List (α × α)) (r c : ℕ) :
    runoutTerrain g th ts r c = ts.any fun t => marks g th t r c := by
  simp [runoutTerrain, foldl_maskStep, initialMask]

lemma runoutTerrain_true_iff (g : Grid α) (th : α) (ts : List (α × α)) (r c : ℕ) :
    runoutTerrain g th ts r c = true ↔ ∃ t ∈ ts, marks g th t r c = true := by
  simp [runoutTerrain_eq_any, List.any_eq_true]

/-! ### The containing cell of a cell center is that cell -/

lemma colIdx_eastingAt (g : Grid α) (hpx : g.px ≠ 0) (c : ℕ) :
    colIdx g (eastingAt g c) = c := by
  unfold colIdx eastingAt
  have h1 : (g.x0 + ((c : α) + 1 / 2) * g.px - g.x0) / g.px = (c : α) + 1 / 2 := by
    field_simp
    ring
  rw [h1]
  have h2 : ((c : α) + 1 / 2) = 1 / 2 + ((c : ℤ) : α) := by push_cast; ring
  rw [h2, Int.floor_add_int]
  have h3 : ⌊(1 / 2 : α)⌋ = 0 := by
    rw [Int.floor_eq_zero_iff, Set.mem_Ico]
    constructor <;> norm_num
  rw [h3]
  simp

lemma rowIdx_northingAt (g : Grid α) (hpy : g.py ≠ 0) (r : ℕ) :
    rowIdx g (northingAt g r) = r := by
  unfold rowIdx northingAt
  have h1 : (g.y0 + ((r : α) + 1 / 2) * g.py - g.y0) / g.py = (r : α) + 1 / 2 := by
    field_simp
    ring
  rw [h1]
  have h2 : ((r : α) + 1 / 2) = 1 / 2 + ((r : ℤ) : α) := by push_cast; ring
  rw [h2, Int.floor_add_int]
  have h3 : ⌊(1 / 2 : α)⌋ = 0 := by
    rw [Int.floor_eq_zero_iff, Set.mem_Ico]
    constructor <;> norm_num
  rw [h3]
  simp

lemma sample_center (g : Grid α) (hpx : g.px ≠ 0) (hpy : g.py ≠ 0)
    {r c : ℕ} (hr : r < g.height) (hc : c < g.width) :
    sample g (eastingAt g c) (northingAt g r) = g.elevation r c := by
  have hcol := colIdx_eastingAt g hpx c
  have hrow := rowIdx_northingAt g hpy r
  have hin : inExtent g (eastingAt g c) (northingAt g r) := by
    unfold inExtent
    rw [hcol, hrow]
    exact ⟨Int.natCast_nonneg r, by exact_mod_cast hr,
      Int.natCast_nonneg c, by exact_mod_cast hc⟩
  unfold sample
  rw [if_pos hin, hrow, hcol]
  simp

/-! ### Per-cell facts -/

lemma dists_eq_zero {dx dy : α} (h : dx * dx + dy * dy = 0) :
    dx = 0 ∧ dy = 0 := by
  have h1 : dx * dx = 0 := by nlinarith [mul_self_nonneg dx, mul_self_nonneg dy]
  have h2 : dy * dy = 0 := by nlinarith [mul_self_nonneg dx, mul_self_nonneg dy]
  exact ⟨mul_self_eq_zero.mp h1, mul_self_eq_zero.mp h2⟩

/-- With no (strictly positive) elevation drop the cell is never marked:
the clipped drop is zero, so the comparison is `0 > thresh` (or the NaN
branch at zero distance), both false for a nonnegative threshold. -/
lemma cellReach_false_of_le (thresh te tx ty ex ey ze : α)
    (hth : 0 ≤ thresh) (hle : te ≤ ze) :
    cellReach thresh te tx ty ex ey ze = false := by
  simp only [cellReach]
  have h1 : (if te - ze < 0 then (0 : α) else te - ze) = 0 := by
    rcases lt_or_eq_of_le (sub_nonpos.mpr hle) with h | h
    · exact if_pos h
    · simp [h]
  rw [h1]
  split
  · simp
  · simp only [zero_mul, zero_div]
    exact decide_eq_false (not_lt.mpr hth)

lemma cellReach_true_of_lt (thresh te tx ty ex ey ze : α)
    (hd : (ex - tx) * (ex - tx) + (ey - ty) * (ey - ty) ≠ 0)
    (hdz : 0 ≤ te - ze)
    (hgt : thresh <
      (te - ze) * (te - ze) / ((ex - tx) * (ex - tx) + (ey - ty) * (ey - ty))) :
    cellReach thresh te tx ty ex ey ze = true := by
  simp only [cellReach]
  rw [if_neg hd, if_neg (not_lt.mpr hdz)]
  exact decide_eq_true hgt

lemma cellReach_eq_decide_of_dists_ne (thresh te tx ty ex ey ze : α)
    (hd : (ex - tx) * (ex - tx) + (ey - ty) * (ey - ty) ≠ 0) :
    cellReach thresh te tx ty ex ey ze =
      decide ((max (te - ze) 0) ^ 2 / ((ex - tx) ^ 2 + (ey - ty) ^ 2) > thresh) := by
  simp only [cellReach]
  rw [if_neg hd]
  have hmax : (if te - ze < 0 then (0 : α) else te - ze) = max (te - ze) 0 := by
    rcases lt_or_le (te - ze) 0 with h | h
    · rw [if_pos h, max_eq_right h.le]
    · rw [if_neg (not_lt.mpr h), max_eq_left h]
  have he : (max (te - ze) 0) * (max (te - ze) 0) /
      ((ex - tx) * (ex - tx) + (ey - ty) * (ey - ty)) =
      (max (te - ze) 0) ^ 2 / ((ex - tx) ^ 2 + (ey - ty) ^ 2) := by
    ring_nf
  rw [hmax, he]

/-- A cell is monotone in the threshold: lowering the threshold keeps it
marked. -/
lemma cellReach_mono_thresh (th1 th2 te tx ty ex ey ze : α) (h : th1 ≤ th2)
    (htrue : cellReach th2 te tx ty ex ey ze = true) :
    cellReach th1 te tx ty ex ey ze = true := by
  simp only [cellReach] at htrue ⊢
  by_cases hd : (ex - tx) * (ex - tx) + (ey - ty) * (ey - ty) = 0
  · rw [if_pos hd] at htrue ⊢
    exact htrue
  · rw [if_neg hd] at htrue ⊢
    rw [decide_eq_true_iff] at htrue ⊢
    exact lt_of_le_of_lt h htrue

/-! ### The tangent-squared threshold -/

lemma runoutThresh_nonneg (a : ℝ) : 0 ≤ runoutThresh a := by
  unfold runoutThresh
  positivity

lemma runoutThresh_le_runoutThresh {a1 a2 : ℝ} (h0 : 0 < a1) (h12 : a1 < a2)
    (h90 : a2 < 90) : runoutThresh a1 ≤ runoutThresh a2 := by
  unfold runoutThresh
  have hpi := Real.pi_pos
  have hx1 : 0 < a1 / 180 * Real.pi := by positivity
  have hlt : a1 / 180 * Real.pi < a2 / 180 * Real.pi := by nlinarith
  have hx2 : a2 / 180 * Real.pi < Real.pi / 2 := by nlinarith
  have ht : Real.tan (a1 / 180 * Real.pi) < Real.tan (a2 / 180 * Real.pi) :=
    Real.tan_lt_tan_of_nonneg_of_lt_pi_div_two hx1.le hx2 hlt
  have hn : 0 ≤ Real.tan (a1 / 180 * Real.pi) :=
    Real.tan_nonneg_of_nonneg_of_le_pi_div_two hx1.le (by nlinarith)
  nlinarith

lemma runoutThresh19_lt_one : runoutThresh 19 < 1 := by
  unfold runoutThresh
  have hpi := Real.pi_pos
  have hlt : (19 : ℝ) / 180 * Real.pi < Real.pi / 4 := by nlinarith
  have ht : Real.tan ((19 : ℝ) / 180 * Real.pi) < Real.tan (Real.pi / 4) :=
    Real.tan_lt_tan_of_nonneg_of_lt_pi_div_two (by positivity) (by nlinarith) hlt
  rw [Real.tan_pi_div_four] at ht
  have hn : 0 ≤ Real.tan ((19 : ℝ) / 180 * Real.pi) :=
    Real.tan_nonneg_of_nonneg_of_le_pi_div_two (by positivity) (by nlinarith)
  nlinarith

/-! ### Concrete rasters used to instantiate the theorems -/

/-- A 2-row, 1-column raster: a 100 m cliff in row 0 above a valley floor in
row 1, pixel size 1, origin at (0,0). -/
noncomputable def gDemo : Grid ℝ :=
  { height := 2, width := 1, x0 := 0, y0 := 0, px := 1, py := -1,
    elevation := fun r _ => if r = 0 then 100 else 0, nodata := -9999 }

/-- The center of cell (0,0) of `gDemo`. -/
noncomputable def tDemo : ℝ × ℝ := (1 / 2, -(1 / 2))

lemma gDemo_eastingAt : eastingAt gDemo 0 = 1 / 2 := by
  unfold eastingAt gDemo
  norm_num

lemma gDemo_northingAt0 : northingAt gDemo 0 = -(1 / 2) := by
  unfold northingAt gDemo
  norm_num

lemma gDemo_northingAt1 : northingAt gDemo 1 = -(3 / 2) := by
  unfold northingAt gDemo
  norm_num

lemma gDemo_sample : sample gDemo (1 / 2) (-(1 / 2)) = 100 := by
  have h := sample_center (g := gDemo) (by norm_num [gDemo]) (by norm_num [gDemo])
    (r := 0) (c := 0) (by norm_num [gDemo]) (by norm_num [gDemo])
  rw [gDemo_eastingAt, gDemo_northingAt0] at h
  rw [h]
  norm_num [gDemo]

lemma gDemo_sample1 : sample gDemo (1 / 2) (-(3 / 2)) = 0 := by
  have h := sample_center (g := gDemo) (by norm_num [gDemo]) (by norm_num [gDemo])
    (r := 1) (c := 0) (by norm_num [gDemo]) (by norm_num [gDemo])
  rw [gDemo_eastingAt, gDemo_northingAt1] at h
  rw [h]
  norm_num [gDemo]

/-- The cliff-top trigger marks the valley-floor cell (1,0) at threshold 1:
drop 100, squared distance 1, so the ratio is 10000. -/
lemma gDemo_marks : marks gDemo 1 tDemo 1 0 = true := by
  unfold marks
  show cellReach 1 (sample gDemo (1 / 2) (-(1 / 2))) (1 / 2) (-(1 / 2))
    (eastingAt gDemo 0) (northingAt gDemo 1) (gDemo.elevation 1 0) = true
  rw [gDemo_sample, gDemo_eastingAt, gDemo_northingAt1]
  show cellReach 1 100 (1 / 2) (-(1 / 2)) (1 / 2) (-(3 / 2)) 0 = true
  apply cellReach_true_of_lt <;> norm_num

lemma gDemo_mask : runoutTerrain gDemo 1 [tDemo] 1 0 = true := by
  rw [runoutTerrain_eq_any]
  simp [gDemo_marks]

/-- A 1×1 raster whose no-data sentinel (100) is far above its single cell's
elevation (0): the configuration on which an out-of-extent trigger marks
cells. -/
noncomputable def gC6 : Grid ℝ :=
  { height := 1, width := 1, x0 := 0, y0 := 0, px := 1, py := -1,
    elevation := fun _ _ => 0, nodata := 100 }

lemma gC6_not_inExtent : ¬ inExtent gC6 10 10 := by
  intro h
  have hrow : rowIdx gC6 10 = -10 := by
    unfold rowIdx
    rw [show ((10 : ℝ) - gC6.y0) / gC6.py = ((-10 : ℤ) : ℝ) by
      norm_num [gC6], Int.floor_intCast]
  have h1 : (0 : ℤ) ≤ rowIdx gC6 10 := h.1
  rw [hrow] at h1
  norm_num at h1

lemma gC6_sample : sample gC6 10 10 = 100 := by
  unfold sample
  rw [if_neg gC6_not_inExtent]
  norm_num [gC6]

lemma gC6_marks : marks gC6 (runoutThresh 19) ((10 : ℝ), 10) 0 0 = true := by
  unfold marks
  show cellReach (runoutThresh 19) (sample gC6 10 10) 10 10 (eastingAt gC6 0)
    (northingAt gC6 0) (gC6.elevation 0 0) = true
  rw [gC6_sample, show eastingAt gC6 0 = 1 / 2 by unfold eastingAt gC6; norm_num,
    show northingAt gC6 0 = -(1 / 2) by unfold northingAt gC6; norm_num,
    show gC6.elevation 0 0 = 0 from rfl]
  apply cellReach_true_of_lt
  · norm_num
  · norm_num
  · have h19 := runoutThresh19_lt_one
    have he : ((100 : ℝ) - 0) * (100 - 0) /
        ((1 / 2 - 10) * (1 / 2 - 10) + (-(1 / 2) - 10) * (-(1 / 2) - 10)) =
        20000 / 401 := by norm_num
    rw [he]
    nlinarith

/-- A degenerate raster with no rows or columns: every sampling lands
outside the extent, so `sample` always yields the sentinel (0), which is
below every (hypothetical) cell elevation (5). -/
noncomputable def gA6 : Grid ℝ :=
  { height := 0, width := 0, x0 := 0, y0 := 0, px := 1, py := -1,
    elevation := fun _ _ => 5, nodata := 0 }

lemma gA6_sample (x y : ℝ) : sample gA6 x y = gA6.nodata := by
  unfold sample
  rw [if_neg]
  intro h
  have h1 : (0 : ℤ) ≤ rowIdx gA6 y := h.1
  have h2 : rowIdx gA6 y < (gA6.height : ℤ) := h.2.1
  have h3 : ((gA6.height : ℕ) : ℤ) = 0 := rfl
  omega

/-- A flat 1×1 raster at constant elevation 0 whose sentinel (50) exceeds
the terrain: the configuration refuting the flat-grid scenario for
out-of-extent triggers. -/
noncomputable def gC7 : Grid ℝ :=
  { height := 1, width := 1, x0 := 0, y0 := 0, px := 1, py := -1,
    elevation := fun _ _ => 0, nodata := 50 }

lemma gC7_not_inExtent : ¬ inExtent gC7 5 5 := by
  intro h
  have hrow : rowIdx gC7 5 = -5 := by
    unfold rowIdx
    rw [show ((5 : ℝ) - gC7.y0) / gC7.py = ((-5 : ℤ) : ℝ) by
      norm_num [gC7], Int.floor_intCast]
  have h1 : (0 : ℤ) ≤ rowIdx gC7 5 := h.1
  rw [hrow] at h1
  norm_num at h1

lemma gC7_sample : sample gC7 5 5 = 50 := by
  unfold sample
  rw [if_neg gC7_not_inExtent]
  norm_num [gC7]

lemma gC7_marks : marks gC7 (runoutThresh 19) ((5 : ℝ), 5) 0 0 = true := by
  unfold marks
  show cellReach (runoutThresh 19) (sample gC7 5 5) 5 5 (eastingAt gC7 0)
    (northingAt gC7 0) (gC7.elevation 0 0) = true
  rw [gC7_sample, show eastingAt gC7 0 = 1 / 2 by unfold eastingAt gC7; norm_num,
    show northingAt gC7 0 = -(1 / 2) by unfold northingAt gC7; norm_num,
    show gC7.elevation 0 0 = 0 from rfl]
  apply cellReach_true_of_lt
  · norm_num
  · norm_num
  · have h19 := runoutThresh19_lt_one
    have he : ((50 : ℝ) - 0) * (50 - 0) /
        ((1 / 2 - 5) * (1 / 2 - 5) + (-(1 / 2) - 5) * (-(1 / 2) - 5)) =
        5000 / 101 := by norm_num
    rw [he]
    nlinarith

/-- A flat 1×1 raster at constant elevation 7 whose sentinel is also 7:
sampling yields 7 everywhere, inside or outside the extent. -/
noncomputable def gA7 : Grid ℝ :=
  { height := 1, width := 1, x0 := 0, y0 := 0, px := 1, py := -1,
    elevation := fun _ _ => 7, nodata := 7 }

lemma gA7_sample (x y : ℝ) : sample gA7 x y = 7 := by
  unfold sample
  split
  · rfl
  · rfl

/-! ### Claim theorems -/

/-- A cell is marked by a trigger exactly when the spec's formula holds,
for cells inside the grid.  At a cell coinciding with the trigger's
projected location the sampled trigger elevation equals the cell's own
elevation, so the code's NaN branch yields `false`, agreeing with the
formula (whose total division makes `0/0 = 0`, not above a nonnegative
threshold). -/
lemma marks_iff_specReachable (g : Grid α) (th : α) (tx ty : α) (r c : ℕ)
    (hth : 0 ≤ th) (hpx : g.px ≠ 0) (hpy : g.py ≠ 0)
    (hr : r < g.height) (hc : c < g.width) :
    marks g th (tx, ty) r c = true ↔
      specReachable th (sample g tx ty) tx ty (eastingAt g c) (northingAt g r)
        (g.elevation r c) := by
  unfold marks
  by_cases hd : (eastingAt g c - tx) * (eastingAt g c - tx) +
      (northingAt g r - ty) * (northingAt g r - ty) = 0
  · obtain ⟨hdx, hdy⟩ := dists_eq_zero hd
    have hex : eastingAt g c = tx := sub_eq_zero.mp hdx
    have hey : northingAt g r = ty := sub_eq_zero.mp hdy
    have hte : sample g tx ty = g.elevation r c := by
      rw [← hex, ← hey]
      exact sample_center g hpx hpy hr hc
    constructor
    · intro htrue
      exfalso
      have hfalse := cellReach_false_of_le th (sample g tx ty) tx ty
        (eastingAt g c) (northingAt g r) (g.elevation r c) hth (le_of_eq hte)
      rw [htrue] at hfalse
      simp at hfalse
    · intro hspec
      exfalso
      unfold specReachable at hspec
      rw [hdx, hdy] at hspec
      norm_num at hspec
      exact absurd hspec (not_lt.mpr hth)
  · rw [cellReach_eq_decide_of_dists_ne th (sample g tx ty) tx ty
      (eastingAt g c) (northingAt g r) (g.elevation r c) hd]
    exact decide_eq_true_iff

/-- C1: for every trigger with projected coordinate `(tx, ty)` and sampled
elevation `te`, and every in-grid cell with center `(ex, ey)` and elevation
`ze`, the evaluator marks the cell reachable for that trigger exactly when
`max(te - ze, 0)^2 / ((ex - tx)^2 + (ey - ty)^2) > tan(alpha)^2`, and the
final mask is true at a cell iff at least one trigger marks it. -/
theorem alphas_C1 (g : Grid ℝ) (angle : ℝ) (ts : List (ℝ × ℝ)) (r c : ℕ)
    (hpx : g.px ≠ 0) (hpy : g.py ≠ 0) (hr : r < g.height) (hc : c < g.width) :
    runoutTerrain g (runoutThresh angle) ts r c = true ↔
      ∃ t ∈ ts, specReachable (runoutThresh angle) (sample g t.1 t.2) t.1 t.2
        (eastingAt g c) (northingAt g r) (g.elevation r c) := by
  rw [runoutTerrain_true_iff]
  refine exists_congr fun t => and_congr_right fun _ => ?_
  exact marks_iff_specReachable g (runoutThresh angle) t.1 t.2 r c
    (runoutThresh_nonneg angle) hpx hpy hr hc

/-- Witness for C1 at the concrete cliff raster `gDemo`, trigger at the
center of cell (0,0), evaluated cell (1,0), angle 19. -/
theorem alphas_C1_witness :
    (gDemo.px ≠ 0 ∧ gDemo.py ≠ 0 ∧ 1 < gDemo.height ∧ 0 < gDemo.width) ∧
    (runoutTerrain gDemo (runoutThresh 19) [tDemo] 1 0 = true ↔
      ∃ t ∈ [tDemo], specReachable (runoutThresh 19) (sample gDemo t.1 t.2)
        t.1 t.2 (eastingAt gDemo 0) (northingAt gDemo 1)
        (gDemo.elevation 1 0)) :=
  ⟨⟨by norm_num [gDemo], by norm_num [gDemo], by norm_num [gDemo],
      by norm_num [gDemo]⟩,
    alphas_C1 gDemo 19 [tDemo] 1 0 (by norm_num [gDemo]) (by norm_num [gDemo])
      (by norm_num [gDemo]) (by norm_num [gDemo])⟩

/-- C2: the mask is monotone over the run: it is all-false at creation,
processing a trigger only turns cells from false to true (a true cell stays
true), and for trigger subsets `A ⊆ B` every cell true under `A` is true
under `B`. -/
theorem alphas_C2 (g : Grid α) (th : α) (A B : List (α × α)) (hAB : A ⊆ B)
    (m : ℕ → ℕ → Bool) (t : α × α) (r c : ℕ) (hm : m r c = true)
    (hA : runoutTerrain g th A r c = true) :
    initialMask r c = false ∧ maskStep g th m t r c = true ∧
      runoutTerrain g th B r c = true := by
  refine ⟨rfl, ?_, ?_⟩
  · simp [maskStep, hm]
  · rw [runoutTerrain_true_iff] at hA ⊢
    obtain ⟨x, hx, hmark⟩ := hA
    exact ⟨x, hAB hx, hmark⟩

/-- Witness for C2: the singleton trigger list inside a two-trigger list on
the cliff raster, at the marked valley cell (1,0). -/
theorem alphas_C2_witness :
    (([tDemo] : List (ℝ × ℝ)) ⊆ [tDemo, (0, 0)] ∧
      (fun _ _ => true) 1 0 = true ∧
      runoutTerrain gDemo 1 [tDemo] 1 0 = true) ∧
    (initialMask 1 0 = false ∧
      maskStep gDemo 1 (fun _ _ => true) ((0 : ℝ), 0) 1 0 = true ∧
      runoutTerrain gDemo 1 [tDemo, ((0 : ℝ), 0)] 1 0 = true) :=
  ⟨⟨List.cons_subset_cons tDemo (List.nil_subset _), rfl, gDemo_mask⟩,
    alphas_C2 gDemo 1 [tDemo] [tDemo, (0, 0)]
      (List.cons_subset_cons tDemo (List.nil_subset _))
      (fun _ _ => true) ((0 : ℝ), 0) 1 0 rfl gDemo_mask⟩

/-- C3: evaluating the triggers in any permutation of the list yields the
identical final mask, and a partition of the list merged by pointwise OR
also yields the identical mask. -/
theorem alphas_C3 (g : Grid α) (th : α) (ts₁ ts₂ ts₃ : List (α × α))
    (hperm : ts₁.Perm ts₂) :
    runoutTerrain g th ts₁ = runoutTerrain g th ts₂ ∧
      ∀ r c, runoutTerrain g th (ts₁ ++ ts₃) r c =
        (runoutTerrain g th ts₁ r c || runoutTerrain g th ts₃ r c) := by
  constructor
  · funext r c
    rw [runoutTerrain_eq_any, runoutTerrain_eq_any, Bool.eq_iff_iff,
      List.any_eq_true, List.any_eq_true]
    exact ⟨fun ⟨t, ht, h⟩ => ⟨t, hperm.mem_iff.mp ht, h⟩,
      fun ⟨t, ht, h⟩ => ⟨t, hperm.mem_iff.mpr ht, h⟩⟩
  · intro r c
    rw [runoutTerrain_eq_any, runoutTerrain_eq_any, runoutTerrain_eq_any,
      List.any_append]

/-- Witness for C3: swapping two concrete triggers, and splitting off a
singleton partition, on the cliff raster. -/
theorem alphas_C3_witness :
    ([tDemo, ((0 : ℝ), 0)].Perm [((0 : ℝ), 0), tDemo]) ∧
    (runoutTerrain gDemo 1 [tDemo, ((0 : ℝ), 0)] =
        runoutTerrain gDemo 1 [((0 : ℝ), 0), tDemo] ∧
      ∀ r c, runoutTerrain gDemo 1 ([tDemo, ((0 : ℝ), 0)] ++ [tDemo]) r c =
        (runoutTerrain gDemo 1 [tDemo, ((0 : ℝ), 0)] r c ||
          runoutTerrain gDemo 1 [tDemo] r c)) :=
  ⟨List.Perm.swap _ _ _,
    alphas_C3 gDemo 1 [tDemo, ((0 : ℝ), 0)] [((0 : ℝ), 0), tDemo] [tDemo]
      (List.Perm.swap _ _ _)⟩

/-- C4: a cell strictly higher than the trigger's sampled elevation
(`elevationDrop < 0` before clipping) is never marked by that trigger,
regardless of the distance: the drop is clipped to zero and `0 > tan²` is
false (as is the NaN branch at zero distance). -/
theorem alphas_C4 (g : Grid ℝ) (angle : ℝ) (t : ℝ × ℝ) (r c : ℕ)
    (hr : r < g.height) (hc : c < g.width)
    (huphill : sample g t.1 t.2 < g.elevation r c) :
    marks g (runoutThresh angle) t r c = false := by
  unfold marks
  exact cellReach_false_of_le (runoutThresh angle) (sample g t.1 t.2) t.1 t.2
    (eastingAt g c) (northingAt g r) (g.elevation r c)
    (runoutThresh_nonneg angle) huphill.le

/-- Witness for C4: the trigger at the valley cell (1,0) of the cliff
raster never marks the cliff-top cell (0,0), 100 m above it. -/
theorem alphas_C4_witness :
    (0 < gDemo.height ∧ 0 < gDemo.width ∧
      sample gDemo (1 / 2) (-(3 / 2)) < gDemo.elevation 0 0) ∧
    marks gDemo (runoutThresh 19) ((1 / 2 : ℝ), -(3 / 2)) 0 0 = false := by
  have hup : sample gDemo (1 / 2 : ℝ) (-(3 / 2)) < gDemo.elevation 0 0 := by
    rw [gDemo_sample1]
    norm_num [gDemo]
  exact ⟨⟨by norm_num [gDemo], by norm_num [gDemo], hup⟩,
    alphas_C4 gDemo 19 ((1 / 2 : ℝ), -(3 / 2)) 0 0 (by norm_num [gDemo])
      (by norm_num [gDemo]) hup⟩

/-- C5: a cell at exactly zero squared distance from its trigger gets the
single deterministic mask value `false`: the sampled trigger elevation
equals that cell's elevation, the clipped drop is zero, and the `0.0/0.0`
NaN comparison is false — no undefined numeric value reaches the boolean
mask. -/
theorem alphas_C5 (g : Grid α) (th tx ty : α) (r c : ℕ)
    (hpx : g.px ≠ 0) (hpy : g.py ≠ 0) (hr : r < g.height) (hc : c < g.width)
    (hzero : (eastingAt g c - tx) * (eastingAt g c - tx) +
      (northingAt g r - ty) * (northingAt g r - ty) = 0) :
    marks g th (tx, ty) r c = false := by
  obtain ⟨hdx, hdy⟩ := dists_eq_zero hzero
  have hex : eastingAt g c = tx := sub_eq_zero.mp hdx
  have hey : northingAt g r = ty := sub_eq_zero.mp hdy
  have hte : sample g tx ty = g.elevation r c := by
    rw [← hex, ← hey]
    exact sample_center g hpx hpy hr hc
  unfold marks
  show cellReach th (sample g tx ty) tx ty (eastingAt g c) (northingAt g r)
    (g.elevation r c) = false
  simp only [cellReach]
  rw [if_pos hzero, sub_eq_zero.mpr hte]
  norm_num

/-- Witness for C5: the trigger at the center of cell (0,0) of the cliff
raster and that same cell. -/
theorem alphas_C5_witness :
    (gDemo.px ≠ 0 ∧ gDemo.py ≠ 0 ∧ 0 < gDemo.height ∧ 0 < gDemo.width ∧
      (eastingAt gDemo 0 - 1 / 2) * (eastingAt gDemo 0 - 1 / 2) +
        (northingAt gDemo 0 - -(1 / 2)) * (northingAt gDemo 0 - -(1 / 2)) = 0) ∧
    marks gDemo 1 ((1 / 2 : ℝ), -(1 / 2)) 0 0 = false := by
  have hz : (eastingAt gDemo 0 - 1 / 2) * (eastingAt gDemo 0 - 1 / 2) +
      (northingAt gDemo 0 - -(1 / 2 : ℝ)) * (northingAt gDemo 0 - -(1 / 2)) = 0 := by
    rw [gDemo_eastingAt, gDemo_northingAt0]
    norm_num
  exact ⟨⟨by norm_num [gDemo], by norm_num [gDemo], by norm_num [gDemo],
      by norm_num [gDemo], hz⟩,
    alphas_C5 gDemo 1 (1 / 2) (-(1 / 2)) 0 0 (by norm_num [gDemo])
      (by norm_num [gDemo]) (by norm_num [gDemo]) (by norm_num [gDemo]) hz⟩

/-- C6 counterexample: on the raster `gC6`, whose no-data sentinel (100)
exceeds the terrain, the trigger projected to (10,10) lies outside the
extent yet marks cell (0,0) — its contribution to the mask is not empty, so
the claim as stated is false. -/
theorem alphas_C6_counterexample :
    ¬ inExtent gC6 10 10 ∧
      runoutTerrain gC6 (runoutThresh 19) [((10 : ℝ), 10)] 0 0 = true := by
  refine ⟨gC6_not_inExtent, ?_⟩
  rw [runoutTerrain_eq_any]
  simp [gC6_marks]

/-- C6 amended: a trigger whose projected coordinate falls outside the
grid's extent, or lands on a no-data cell, samples the no-data sentinel;
provided the sentinel does not exceed any cell's elevation (e.g. the usual
large negative sentinel), such a trigger contributes no reachable cells —
its effect on the shared mask is the empty set — and the evaluation is
total (no abort). -/
theorem alphas_C6_amended (g : Grid ℝ) (angle : ℝ) (t : ℝ × ℝ)
    (hbad : sample g t.1 t.2 = g.nodata)
    (hsent : ∀ r c, g.nodata ≤ g.elevation r c) :
    (∀ r c, marks g (runoutThresh angle) t r c = false) ∧
      ∀ m r c, maskStep g (runoutThresh angle) m t r c = m r c := by
  have hall : ∀ r c, marks g (runoutThresh angle) t r c = false := by
    intro r c
    unfold marks
    apply cellReach_false_of_le _ _ _ _ _ _ _ (runoutThresh_nonneg angle)
    rw [hbad]
    exact hsent r c
  refine ⟨hall, fun m r c => ?_⟩
  simp [maskStep, hall r c]

/-- Witness for C6 amended: the empty raster `gA6`, whose sentinel 0 is
below every (hypothetical) cell elevation 5; the trigger at (3,7) samples
the sentinel and marks nothing. -/
theorem alphas_C6_amended_witness :
    (sample gA6 3 7 = gA6.nodata ∧ ∀ r c, gA6.nodata ≤ gA6.elevation r c) ∧
    ((∀ r c, marks gA6 (runoutThresh 19) ((3 : ℝ), 7) r c = false) ∧
      ∀ m r c, maskStep gA6 (runoutThresh 19) m ((3 : ℝ), 7) r c = m r c) :=
  ⟨⟨gA6_sample 3 7, fun _ _ => by norm_num [gA6]⟩,
    alphas_C6_amended gA6 19 ((3 : ℝ), 7) (gA6_sample 3 7)
      (fun _ _ => by norm_num [gA6])⟩

/-- C7 counterexample: `gC7` is flat (elevation 0 everywhere) and the angle
is 19°, yet the out-of-extent trigger (5,5) samples the sentinel 50 and
marks cell (0,0), so the mask is not entirely false — the claim fails for
arbitrary trigger sets. -/
theorem alphas_C7_counterexample :
    (∀ r c, gC7.elevation r c = 0) ∧
      runoutTerrain gC7 (runoutThresh 19) [((5 : ℝ), 5)] 0 0 = true := by
  refine ⟨fun _ _ => rfl, ?_⟩
  rw [runoutTerrain_eq_any]
  simp [gC7_marks]

/-- C7 amended: on a flat grid (elevation the same constant `K` at every
cell), with runout angle 19°, any set of triggers whose sampled elevation is
`K` — in particular any triggers projected inside the grid's extent — yields
an entirely false mask, including at each trigger's own cell. -/
theorem alphas_C7_amended (g : Grid ℝ) (K : ℝ)
    (hflat : ∀ r c, g.elevation r c = K) (ts : List (ℝ × ℝ))
    (hin : ∀ t ∈ ts, sample g t.1 t.2 = K) (r c : ℕ) :
    runoutTerrain g (runoutThresh 19) ts r c = false := by
  rw [runoutTerrain_eq_any, List.any_eq_false]
  intro t ht
  simp only [Bool.not_eq_true]
  unfold marks
  apply cellReach_false_of_le _ _ _ _ _ _ _ (runoutThresh_nonneg 19)
  rw [hin t ht, hflat r c]

/-- Witness for C7 amended: the flat raster `gA7` at constant elevation 7
(sentinel also 7, so every sampling returns 7) with one trigger. -/
theorem alphas_C7_amended_witness :
    ((∀ r c, gA7.elevation r c = 7) ∧
      ∀ t ∈ [((2 : ℝ), 3)], sample gA7 t.1 t.2 = 7) ∧
    runoutTerrain gA7 (runoutThresh 19) [((2 : ℝ), 3)] 0 0 = false :=
  ⟨⟨fun _ _ => rfl, fun t _ => gA7_sample t.1 t.2⟩,
    alphas_C7_amended gA7 7 (fun _ _ => rfl) [((2 : ℝ), 3)]
      (fun t _ => gA7_sample t.1 t.2) 0 0⟩

/-- C8: with runout angles `0 < a1 < a2 < 90`, a cell marked reachable at
angle `a2` (per trigger, and in the final mask) is also marked at angle
`a1`: increasing the angle raises the `tan²` threshold and can only shrink
the reachable set. -/
theorem alphas_C8 (a1 a2 : ℝ) (h0 : 0 < a1) (h12 : a1 < a2) (h90 : a2 < 90)
    (g : Grid ℝ) (ts : List (ℝ × ℝ)) (t : ℝ × ℝ) (r c : ℕ) :
    (marks g (runoutThresh a2) t r c = true →
      marks g (runoutThresh a1) t r c = true) ∧
    (runoutTerrain g (runoutThresh a2) ts r c = true →
      runoutTerrain g (runoutThresh a1) ts r c = true) := by
  have hle := runoutThresh_le_runoutThresh h0 h12 h90
  constructor
  · intro h
    unfold marks at h ⊢
    exact cellReach_mono_thresh _ _ _ _ _ _ _ _ hle h
  · intro h
    rw [runoutTerrain_true_iff] at h ⊢
    obtain ⟨x, hx, hm⟩ := h
    refine ⟨x, hx, ?_⟩
    unfold marks at hm ⊢
    exact cellReach_mono_thresh _ _ _ _ _ _ _ _ hle hm

/-- Witness for C8 at angles 19 < 45 on the cliff raster. -/
theorem alphas_C8_witness :
    ((0 : ℝ) < 19 ∧ (19 : ℝ) < 45 ∧ (45 : ℝ) < 90) ∧
    ((marks gDemo (runoutThresh 45) tDemo 1 0 = true →
        marks gDemo (runoutThresh 19) tDemo 1 0 = true) ∧
      (runoutTerrain gDemo (runoutThresh 45) [tDemo] 1 0 = true →
        runoutTerrain gDemo (runoutThresh 19) [tDemo] 1 0 = true)) :=
  ⟨⟨by norm_num, by norm_num, by norm_num⟩,
    alphas_C8 19 45 (by norm_num) (by norm_num) (by norm_num) gDemo [tDemo]
      tDemo 1 0⟩

/-- C9 counterexample: the integer angle 100 lies outside the open interval
(0, 90), yet `int()` accepts it and the program proceeds to evaluate the
mask — no rejection before evaluation takes place. -/
theorem alphas_C9_counterexample :
    pyInt "100" = some 100 ∧ ¬ ((0 : ℤ) < 100 ∧ (100 : ℤ) < 90) ∧
      (runProgram (fun z : ℤ => runoutThresh z) (some "100") gDemo
        []).isSome = true := by
  have hp : pyInt "100" = some 100 := by decide
  refine ⟨hp, by decide, ?_⟩
  simp [runProgram, runoutAngleOf, hp]

/-- C9 amended: the runout angle defaults to 19 degrees, but no range
validation is performed: every string accepted by `int()` — including
values outside (0, 90) — is used for evaluation. -/
theorem alphas_C9_amended (s : String) (z : ℤ) (hz : pyInt s = some z)
    (g : Grid ℝ) (ts : List (ℝ × ℝ)) :
    runoutAngleOf none = some defaultAlpha ∧ defaultAlpha = 19 ∧
      runProgram (fun a : ℤ => runoutThresh a) (some s) g ts =
        some (runoutTerrain g (runoutThresh (z : ℝ)) ts) := by
  refine ⟨rfl, rfl, ?_⟩
  simp [runProgram, runoutAngleOf, hz]

/-- Witness for C9 amended: the out-of-range string "100" is accepted and
evaluated on the cliff raster. -/
theorem alphas_C9_amended_witness :
    pyInt "100" = some 100 ∧
    (runoutAngleOf none = some defaultAlpha ∧ defaultAlpha = 19 ∧
      runProgram (fun a : ℤ => runoutThresh a) (some "100") gDemo [] =
        some (runoutTerrain gDemo (runoutThresh ((100 : ℤ) : ℝ)) [])) :=
  ⟨by decide, alphas_C9_amended "100" 100 (by decide) gDemo []⟩

/-- C10: the alpha value is converted with `int()` before the threshold is
computed; only integer-valued strings are accepted, and a fractional string
such as "19.5" fails at argument extraction — for every grid and trigger
list the run produces nothing, independent of any terrain data (the
conversion on line 55 precedes the DEM loading on line 95). -/
theorem alphas_C10 :
    pyInt "19.5" = none ∧
    (∀ (g : Grid ℝ) (ts : List (ℝ × ℝ)),
      runProgram (fun z : ℤ => runoutThresh z) (some "19.5") g ts = none) ∧
    pyInt "19" = some 19 := by
  have hp : pyInt "19.5" = none := by decide
  refine ⟨hp, ?_, by decide⟩
  intro g ts
  simp [runProgram, runoutAngleOf, hp]

end Alphas

